import Mathlib

/-!
Verification of the natural-language specification of
`ecs-asg-container-instance-draining` (src/lambda_py/container_draining.py)
against a shallow Lean embedding of that Python source.

The Python module is a single AWS Lambda handler.  We embed:
  * JSON message dicts as association lists of string keys and values
    (`Msg`), with Python dict lookup (`lookupKey`) and in-place update of
    one key (`setKey`, the effect of `dict.update` with a one-key dict);
  * `publish_to_sns` (backoff computation, retry_count increment, publish);
  * `get_ecs_cluster_name`'s pure userdata scan (`clusterNameFromUserData`;
    the base64 fetch/decode is the external EC2 call, so the embedding
    takes the decoded userdata text from the external world);
  * `container_instance_task_status` and `lambda_handler`, with every AWS
    API call recorded as an `Effect` in an ordered trace, external service
    responses supplied by a `World` record, and Python exceptions modelled
    as `PyErr` values (`Except` / `Option PyErr` results).
-/

/-- A JSON scalar value as it appears in the SNS message dict: the handler
only ever distinguishes strings and the integer `retry_count`. -/
inductive JVal where
  | str : String → JVal
  | num : Nat → JVal
deriving DecidableEq, Repr

/-- Python string coercion used where the handler passes a message field to
an API parameter (fields are strings in every real event). -/
def JVal.asString : JVal → String
  | JVal.str s => s
  | JVal.num n => toString n

/-- A parsed JSON message dict: association list, unique keys, insertion
order preserved (Python dict semantics). -/
abbrev Msg : Type := List (String × JVal)

/-- Python `message[k]` / `message.get(k)`: first entry with the key. -/
def lookupKey : Msg → String → Option JVal
  | [], _ => none
  | (k2, v) :: rest, k => if k2 = k then some v else lookupKey rest k

/-- Python `message.update({k: v})`: replace the value at `k` in place,
keeping insertion order; append if the key is absent. -/
def setKey : Msg → String → JVal → Msg
  | [], k, v => [(k, v)]
  | (k2, v2) :: rest, k, v =>
      if k2 = k then (k, v) :: rest else (k2, v2) :: setKey rest k v

/-- Line 43: `retry_count = message.get('retry_count', 1)`.  Defaults to 1
when the field is absent.  (A non-integer value would make the Python
`2 ** retry_count` raise; no theorem exercises the `JVal.str` arm.) -/
def retryCountOf (message : Msg) : Nat :=
  match lookupKey message "retry_count" with
  | some (JVal.num n) => n
  | _ => 1

/-- Whether the pattern is a prefix of the text (character lists). -/
def charsStartWith : List Char → List Char → Bool
  | [], _ => true
  | _ :: _, [] => false
  | p :: ps, c :: cs => p == c && charsStartWith ps cs

/-- Whether the pattern occurs somewhere in the text (character lists). -/
def charsContain (text pat : List Char) : Bool :=
  match text with
  | [] => pat == []
  | _ :: rest => charsStartWith pat text || charsContain rest pat

/-- Python `pat in s` substring test (also `s.find(pat) > -1`). -/
def containsSubstr (s pat : String) : Bool :=
  charsContain s.toList pat.toList

/-- Split a character list at every occurrence of the separator,
keeping empty pieces — Python `s.split(sep)` semantics. -/
def splitOnCharAux (sep : Char) : List Char → List Char → List (List Char)
  | [], acc => [acc.reverse]
  | c :: rest, acc =>
      if c == sep then acc.reverse :: splitOnCharAux sep rest []
      else splitOnCharAux sep rest (c :: acc)

/-- Python `s.split(sep)` for a one-character separator, as used by
line 159 `token.split("=")`. -/
def pySplit (s : String) (sep : Char) : List String :=
  (splitOnCharAux sep s.toList []).map List.asString

/-- Split a character list on whitespace runs, discarding empty pieces —
Python `s.split()` (no argument) semantics. -/
def wsTokensAux : List Char → List Char → List (List Char)
  | [], acc => if acc == [] then [] else [acc.reverse]
  | c :: rest, acc =>
      if c.isWhitespace then
        if acc == [] then wsTokensAux rest [] else acc.reverse :: wsTokensAux rest []
      else wsTokensAux rest (c :: acc)

/-- Python `s.split()` with no argument: split on whitespace runs,
discarding empty pieces (line 155 `userdata_decoded.split()`). -/
def pyTokens (s : String) : List String :=
  (wsTokensAux s.toList []).map List.asString

/-- The Python exceptions the embedded code can raise or observe. -/
inductive PyErr where
  | keyError
  | indexError
  | clientError
  | otherError
deriving DecidableEq, Repr

instance {α : Type} [DecidableEq α] : DecidableEq (Except PyErr α) := fun a b =>
  match a, b with
  | Except.ok x, Except.ok y => decidable_of_iff (x = y) (by simp)
  | Except.error x, Except.error y => decidable_of_iff (x = y) (by simp)
  | Except.ok _, Except.error _ => isFalse (fun h => Except.noConfusion h)
  | Except.error _, Except.ok _ => isFalse (fun h => Except.noConfusion h)

/-- One iteration of the loop in `get_ecs_cluster_name` (lines 156-160):
if the token contains "ECS_CLUSTER", `token.split("=")[1]` replaces the
current cluster name, raising IndexError when the token has no `=`.
A raised exception aborts the rest of the loop (error absorbs). -/
def clusterScanStep (acc : Except PyErr String) (token : String) : Except PyErr String :=
  match acc with
  | Except.error e => Except.error e
  | Except.ok current =>
      if containsSubstr token "ECS_CLUSTER" then
        match (pySplit token '=')[1]? with
        | some v => Except.ok v
        | none => Except.error PyErr.indexError
      else Except.ok current

/-- Lines 153-162 of `get_ecs_cluster_name`: scan the whitespace tokens of
the decoded userdata, starting from the default name "default". -/
def clusterNameFromUserData (userdata : String) : Except PyErr String :=
  (pyTokens userdata).foldl clusterScanStep (Except.ok "default")

/-- Result of `publish_to_sns`: the computed sleep time, the state of the
caller's message dict after the call (mutated in place by
`message.update`, lines 51-54), and the message serialized to SNS
(line 59 serializes that same dict). -/
structure PublishResult where
  sleep : ℚ
  messageAfter : Msg
  published : Msg
deriving DecidableEq

/-- Lines 34-62, `publish_to_sns`.  `jitter` models the value of
`random.randint(0, 1000)` (so `jitter ≤ 1000` in every real run);
`sleep = min(2 ** retry_count + jitter / 1000, 30)`. -/
def publish_to_sns (message : Msg) (jitter : Nat) : PublishResult :=
  let retry_count := retryCountOf message
  let sleep_time : ℚ := min ((2 : ℚ) ^ retry_count + (jitter : ℚ) / 1000) 30
  let updated := setKey message "retry_count" (JVal.num (retry_count + 1))
  { sleep := sleep_time, messageAfter := updated, published := updated }

/-- One entry of the ECS `describe_container_instances` response, with the
three fields the source reads (lines 84, 85, 91). -/
structure ContainerInstance where
  ec2InstanceId : String
  containerInstanceArn : String
  status : String
deriving DecidableEq, Repr

/-- Outcome of the one `complete_lifecycle_action` call: success, the
`botocore.exceptions.ClientError` that line 219 catches, or any other
exception (which nothing catches). -/
inductive CompleteOutcome where
  | ok
  | clientError
  | otherError
deriving DecidableEq, Repr

/-- External AWS API calls, recorded in order of issue.  Log lines (stdout
prints) are not effects. -/
inductive Effect where
  | describeInstanceAttributeCall (instanceId : String)
  | listContainerInstancesCall (cluster : String)
  | describeContainerInstancesCall (cluster : String)
  | updateContainerInstancesState (cluster : String) (containerInstances : List String) (status : String)
  | listTasksCall (cluster : String) (containerInstance : String)
  | snsPublish (topicArn : String) (message : Msg)
  | completeLifecycleAction (hookName groupName result instanceId : String)
deriving DecidableEq, Repr

/-- Responses of the external AWS services for one invocation.
`userDataOf` is the already-base64-decoded userdata text returned by the
EC2 `describe_instance_attribute` call; `describeContainerInstances` is
the (list + describe) container-instance listing for a cluster;
`listTasks` gives the task ARNs for (cluster, container instance ARN). -/
structure World where
  userDataOf : String → String
  describeContainerInstances : String → List ContainerInstance
  listTasks : String → String → List String
  completeOutcome : CompleteOutcome

/-- The update calls issued by the loop at lines 83-111: one
`update_container_instances_state(..., status='DRAINING')` per entry that
matches the EC2 instance id and is not already DRAINING, in list order. -/
def drainEffects (cluster : String) (insts : List ContainerInstance) (instanceId : String) : List Effect :=
  insts.filterMap (fun ci =>
    if ci.ec2InstanceId == instanceId && !(ci.status == "DRAINING") then
      some (Effect.updateContainerInstancesState cluster [ci.containerInstanceArn] "DRAINING")
    else none)

/-- The final value of `container_instance_id` after the loop at lines
83-111: the ARN of the last matching entry (each match reassigns it),
`none` when no entry matches. -/
def matchedArn (insts : List ContainerInstance) (instanceId : String) : Option String :=
  ((insts.filter (fun ci => ci.ec2InstanceId == instanceId)).getLast?).map
    ContainerInstance.containerInstanceArn

/-- Lines 64-137, `container_instance_task_status`: returns the trace of
API calls made and either a raised exception or the pair
`(tasks_running, tmp_msg_append)` where `tmp_msg_append` carries the
resolved container instance ARN.  The cluster resolution performs the EC2
describe-attribute call; an IndexError in the userdata scan propagates
before any ECS call is made. -/
def container_instance_task_status (w : World) (ec2_instance_id : String) :
    List Effect × Except PyErr (Nat × Option String) :=
  match clusterNameFromUserData (w.userDataOf ec2_instance_id) with
  | Except.error e => ([Effect.describeInstanceAttributeCall ec2_instance_id], Except.error e)
  | Except.ok cluster_name =>
      let insts := w.describeContainerInstances cluster_name
      let pre := [Effect.describeInstanceAttributeCall ec2_instance_id,
                  Effect.listContainerInstancesCall cluster_name,
                  Effect.describeContainerInstancesCall cluster_name]
      let effs := pre ++ drainEffects cluster_name insts ec2_instance_id
      match matchedArn insts ec2_instance_id with
      | some container_instance_id =>
          let running_task_count := (w.listTasks cluster_name container_instance_id).length
          (effs ++ [Effect.listTasksCall cluster_name container_instance_id],
           Except.ok ((if 0 < running_task_count then 1 else 0), some container_instance_id))
      | none => (effs, Except.ok (0, none))

/-- Lines 164-220, `lambda_handler`.  `message` is the parsed SNS message
JSON; `jitter` is passed through to `publish_to_sns`.  Returns the trace
of API calls and `some e` when exception `e` propagates out of the
handler.  Lines 171-172 read `EC2InstanceId` and `AutoScalingGroupName`
before anything else (KeyError when absent); line 193 reads
`LifecycleHookName` before the status check; lines 212-220 attempt the
lifecycle completion once, swallowing only ClientError. -/
def lambda_handler (w : World) (message : Msg) (topicArn : String) (jitter : Nat) :
    List Effect × Option PyErr :=
  match lookupKey message "EC2InstanceId" with
  | none => ([], some PyErr.keyError)
  | some iidV =>
    match lookupKey message "AutoScalingGroupName" with
    | none => ([], some PyErr.keyError)
    | some asgV =>
      let ec2_instance_id := iidV.asString
      let asg_group_name := asgV.asString
      match lookupKey message "LifecycleTransition" with
      | none => ([], none)
      | some ltV =>
          if containsSubstr ltV.asString "autoscaling:EC2_INSTANCE_TERMINATING" then
            match lookupKey message "LifecycleHookName" with
            | none => ([], some PyErr.keyError)
            | some hookV =>
                let lifecycle_hook_name := hookV.asString
                match container_instance_task_status w ec2_instance_id with
                | (effs, Except.error e) => (effs, some e)
                | (effs, Except.ok (tasks_running, tmp_msg_append)) =>
                    let message := match tmp_msg_append with
                      | some cid => setKey message "container_instance_id" (JVal.str cid)
                      | none => message
                    if tasks_running == 1 then
                      let pr := publish_to_sns message jitter
                      (effs ++ [Effect.snsPublish topicArn pr.published], none)
                    else if tasks_running == 0 then
                      let effs := effs ++ [Effect.completeLifecycleAction
                        lifecycle_hook_name asg_group_name "CONTINUE" ec2_instance_id]
                      match w.completeOutcome with
                      | CompleteOutcome.otherError => (effs, some PyErr.otherError)
                      | _ => (effs, none)
                    else (effs, none)
          else ([], none)

/-- Number of SNS publish calls in a trace. -/
def countPublish (t : List Effect) : Nat :=
  t.countP (fun e => match e with
    | Effect.snsPublish _ _ => true
    | _ => false)

/-- Number of `complete_lifecycle_action` calls in a trace. -/
def countComplete (t : List Effect) : Nat :=
  t.countP (fun e => match e with
    | Effect.completeLifecycleAction _ _ _ _ => true
    | _ => false)

/-- Number of `update_container_instances_state` calls in a trace. -/
def countUpdateState (t : List Effect) : Nat :=
  t.countP (fun e => match e with
    | Effect.updateContainerInstancesState _ _ _ => true
    | _ => false)

/-- Number of `list_tasks` calls in a trace. -/
def countListTasks (t : List Effect) : Nat :=
  t.countP (fun e => match e with
    | Effect.listTasksCall _ _ => true
    | _ => false)

/-- Concrete terminating-notice message used by witnesses: the initial
event shape from the spec example. -/
def msgTerm : Msg :=
  [("EC2InstanceId", JVal.str "i-1"),
   ("AutoScalingGroupName", JVal.str "asg-1"),
   ("LifecycleHookName", JVal.str "hook-1"),
   ("LifecycleTransition", JVal.str "autoscaling:EC2_INSTANCE_TERMINATING")]

/-- Concrete world for witnesses: instance `i-1` is tracked in cluster
`prod` (status ACTIVE) and still hosts two tasks. -/
def worldBusy : World :=
  { userDataOf := fun _ => "ECS_CLUSTER=prod",
    describeContainerInstances := fun _ =>
      [{ ec2InstanceId := "i-1", containerInstanceArn := "arn:ci/1", status := "ACTIVE" }],
    listTasks := fun _ _ => ["task-1", "task-2"],
    completeOutcome := CompleteOutcome.ok }

/-- Concrete world for witnesses: same as `worldBusy` but no task left. -/
def worldIdle : World :=
  { userDataOf := fun _ => "ECS_CLUSTER=prod",
    describeContainerInstances := fun _ =>
      [{ ec2InstanceId := "i-1", containerInstanceArn := "arn:ci/1", status := "ACTIVE" }],
    listTasks := fun _ _ => [],
    completeOutcome := CompleteOutcome.ok }

/-- Concrete world for witnesses: no task left and the lifecycle
completion call is rejected with ClientError. -/
def worldClientErr : World :=
  { userDataOf := fun _ => "ECS_CLUSTER=prod",
    describeContainerInstances := fun _ =>
      [{ ec2InstanceId := "i-1", containerInstanceArn := "arn:ci/1", status := "ACTIVE" }],
    listTasks := fun _ _ => [],
    completeOutcome := CompleteOutcome.clientError }

/-- Concrete world for witnesses: no task left and the lifecycle
completion call fails with an exception that is not ClientError. -/
def worldOtherErr : World :=
  { userDataOf := fun _ => "ECS_CLUSTER=prod",
    describeContainerInstances := fun _ =>
      [{ ec2InstanceId := "i-1", containerInstanceArn := "arn:ci/1", status := "ACTIVE" }],
    listTasks := fun _ _ => [],
    completeOutcome := CompleteOutcome.otherError }

/-- Concrete world for witnesses: the cluster manager tracks only a
different instance `i-9`, so `i-1` is untracked. -/
def worldUntracked : World :=
  { userDataOf := fun _ => "ECS_CLUSTER=prod",
    describeContainerInstances := fun _ =>
      [{ ec2InstanceId := "i-9", containerInstanceArn := "arn:ci/9", status := "ACTIVE" }],
    listTasks := fun _ _ => ["task-1"],
    completeOutcome := CompleteOutcome.ok }

/-- Looking up the updated key after a `dict.update` returns the new value. -/
theorem lookupKey_setKey_same (m : Msg) (k : String) (v : JVal) :
    lookupKey (setKey m k v) k = some v := by
  induction m with
  | nil => simp [setKey, lookupKey]
  | cons kv rest ih =>
      obtain ⟨k2, v2⟩ := kv
      by_cases h : k2 = k
      · simp [setKey, lookupKey, h]
      · simp [setKey, lookupKey, h, ih]

/-- Looking up any other key after a `dict.update` is unchanged. -/
theorem lookupKey_setKey_ne (m : Msg) (k j : String) (v : JVal) (h : k ≠ j) :
    lookupKey (setKey m k v) j = lookupKey m j := by
  induction m with
  | nil => simp [setKey, lookupKey, h]
  | cons kv rest ih =>
      obtain ⟨k2, v2⟩ := kv
      by_cases h2 : k2 = k
      · subst h2
        simp [setKey, lookupKey, h]
      · simp [setKey, lookupKey, h2, ih]

/-- The scan step ignores every token once an exception has been raised. -/
theorem clusterScanStep_error (e : PyErr) (t : String) :
    clusterScanStep (Except.error e) t = Except.error e := rfl

/-- The scan step leaves the state alone on a token without the marker. -/
theorem clusterScanStep_skip (c : String) (t : String)
    (h : containsSubstr t "ECS_CLUSTER" = false) :
    clusterScanStep (Except.ok c) t = Except.ok c := by
  simp [clusterScanStep, h]

/-- The scan step replaces the state with the extracted value on a marker
token that contains an `=`. -/
theorem clusterScanStep_hit (c : String) (t v : String)
    (hm : containsSubstr t "ECS_CLUSTER" = true)
    (hv : (pySplit t '=')[1]? = some v) :
    clusterScanStep (Except.ok c) t = Except.ok v := by
  simp [clusterScanStep, hm, hv]

/-- The scan step raises IndexError on a marker token without an `=`. -/
theorem clusterScanStep_raise (c : String) (t : String)
    (hm : containsSubstr t "ECS_CLUSTER" = true)
    (hv : (pySplit t '=')[1]? = none) :
    clusterScanStep (Except.ok c) t = Except.error PyErr.indexError := by
  simp [clusterScanStep, hm, hv]

/-- A raised exception aborts the remainder of the userdata scan. -/
theorem foldl_scan_error (l : List String) (e : PyErr) :
    l.foldl clusterScanStep (Except.error e) = Except.error e := by
  induction l with
  | nil => rfl
  | cons t rest ih => rw [List.foldl_cons, clusterScanStep_error]; exact ih

/-- Tokens without the ECS_CLUSTER marker leave the scan state unchanged. -/
theorem foldl_scan_skip (l : List String) (c : String)
    (h : ∀ t ∈ l, containsSubstr t "ECS_CLUSTER" = false) :
    l.foldl clusterScanStep (Except.ok c) = Except.ok c := by
  induction l with
  | nil => rfl
  | cons t rest ih =>
      rw [List.foldl_cons, clusterScanStep_skip c t (h t (List.mem_cons_self t rest))]
      exact ih (fun u hu => h u (List.mem_cons_of_mem t hu))

/-- When every marker token in the list splits into at least two pieces on
`=` the scan raises nothing: it ends in some `Except.ok` state. -/
theorem foldl_scan_ok (l : List String) (c : String)
    (h : ∀ t ∈ l, containsSubstr t "ECS_CLUSTER" = true →
        (pySplit t '=')[1]? ≠ none) :
    ∃ c2, l.foldl clusterScanStep (Except.ok c) = Except.ok c2 := by
  induction l generalizing c with
  | nil => exact ⟨c, rfl⟩
  | cons t rest ih =>
      have hrest : ∀ u ∈ rest, containsSubstr u "ECS_CLUSTER" = true →
          (pySplit u '=')[1]? ≠ none :=
        fun u hu => h u (List.mem_cons_of_mem t hu)
      cases hm : containsSubstr t "ECS_CLUSTER" with
      | true =>
          obtain ⟨v, hv⟩ :=
            Option.ne_none_iff_exists.mp (h t (List.mem_cons_self t rest) hm)
          rw [List.foldl_cons, clusterScanStep_hit c t v hm hv.symm]
          exact ih v hrest
      | false =>
          rw [List.foldl_cons, clusterScanStep_skip c t hm]
          exact ih c hrest

/-- If some token contains the marker but has no `=`, the scan raises
IndexError (the loop aborts at the first such token). -/
theorem foldl_scan_bad (l : List String) (c : String)
    (h : ∃ t ∈ l, containsSubstr t "ECS_CLUSTER" = true ∧
        (pySplit t '=')[1]? = none) :
    l.foldl clusterScanStep (Except.ok c) = Except.error PyErr.indexError := by
  induction l generalizing c with
  | nil => simp at h
  | cons t rest ih =>
      obtain ⟨t0, ht0mem, ht0m, ht0bad⟩ := h
      rcases List.mem_cons.mp ht0mem with heq | hmem
      · subst heq
        rw [List.foldl_cons, clusterScanStep_raise c t0 ht0m ht0bad]
        exact foldl_scan_error rest PyErr.indexError
      · cases hm : containsSubstr t "ECS_CLUSTER" with
        | true =>
            cases hv : (pySplit t '=')[1]? with
            | none =>
                rw [List.foldl_cons, clusterScanStep_raise c t hm hv]
                exact foldl_scan_error rest PyErr.indexError
            | some v =>
                rw [List.foldl_cons, clusterScanStep_hit c t v hm hv]
                exact ih v ⟨t0, hmem, ht0m, ht0bad⟩
        | false =>
            rw [List.foldl_cons, clusterScanStep_skip c t hm]
            exact ih c ⟨t0, hmem, ht0m, ht0bad⟩

/-- Every effect the drain loop issues is an update-to-DRAINING call. -/
theorem drainEffects_all_update (cluster : String) (insts : List ContainerInstance)
    (instanceId : String) :
    ∀ e ∈ drainEffects cluster insts instanceId,
      ∃ a, e = Effect.updateContainerInstancesState cluster [a] "DRAINING" := by
  intro e he
  simp only [drainEffects, List.mem_filterMap] at he
  obtain ⟨ci, _, hfi⟩ := he
  by_cases h : (ci.ec2InstanceId == instanceId && !(ci.status == "DRAINING")) = true
  · rw [if_pos h] at hfi
    exact ⟨ci.containerInstanceArn, (Option.some.injEq _ _).mp hfi |>.symm⟩
  · rw [if_neg h] at hfi
    exact absurd hfi (by simp)

/-- The drain loop publishes nothing to SNS. -/
theorem countPublish_drainEffects (cluster : String) (insts : List ContainerInstance)
    (instanceId : String) :
    countPublish (drainEffects cluster insts instanceId) = 0 := by
  rw [countPublish, List.countP_eq_zero]
  intro e he
  obtain ⟨a, rfl⟩ := drainEffects_all_update cluster insts instanceId e he
  simp

/-- The drain loop completes no lifecycle action. -/
theorem countComplete_drainEffects (cluster : String) (insts : List ContainerInstance)
    (instanceId : String) :
    countComplete (drainEffects cluster insts instanceId) = 0 := by
  rw [countComplete, List.countP_eq_zero]
  intro e he
  obtain ⟨a, rfl⟩ := drainEffects_all_update cluster insts instanceId e he
  simp

/-- Value of `container_instance_task_status` when the cluster resolves and
some container instance matches the EC2 instance id. -/
theorem cits_matched_eq (w : World) (iid cluster cid : String)
    (h6 : clusterNameFromUserData (w.userDataOf iid) = Except.ok cluster)
    (h7 : matchedArn (w.describeContainerInstances cluster) iid = some cid) :
    container_instance_task_status w iid =
      (([Effect.describeInstanceAttributeCall iid,
         Effect.listContainerInstancesCall cluster,
         Effect.describeContainerInstancesCall cluster]
          ++ drainEffects cluster (w.describeContainerInstances cluster) iid)
        ++ [Effect.listTasksCall cluster cid],
       Except.ok ((if 0 < (w.listTasks cluster cid).length then 1 else 0), some cid)) := by
  unfold container_instance_task_status
  rw [h6]
  dsimp only
  rw [h7]

/-- Value of `container_instance_task_status` when the cluster resolves and
no container instance matches the EC2 instance id. -/
theorem cits_unmatched_eq (w : World) (iid cluster : String)
    (h6 : clusterNameFromUserData (w.userDataOf iid) = Except.ok cluster)
    (h7 : matchedArn (w.describeContainerInstances cluster) iid = none) :
    container_instance_task_status w iid =
      ([Effect.describeInstanceAttributeCall iid,
        Effect.listContainerInstancesCall cluster,
        Effect.describeContainerInstancesCall cluster]
         ++ drainEffects cluster (w.describeContainerInstances cluster) iid,
       Except.ok (0, none)) := by
  unfold container_instance_task_status
  rw [h6]
  dsimp only
  rw [h7]

/-- The status-check phase itself never publishes to SNS and never
completes a lifecycle action, whatever the world replies. -/
theorem cits_counts (w : World) (iid : String) :
    countPublish (container_instance_task_status w iid).1 = 0 ∧
    countComplete (container_instance_task_status w iid).1 = 0 := by
  unfold container_instance_task_status
  cases hc : clusterNameFromUserData (w.userDataOf iid) with
  | error e => simp [countPublish, countComplete]
  | ok cluster =>
      dsimp only
      cases hma : matchedArn (w.describeContainerInstances cluster) iid with
      | none =>
          have hp := countPublish_drainEffects cluster (w.describeContainerInstances cluster) iid
          have hcc := countComplete_drainEffects cluster (w.describeContainerInstances cluster) iid
          rw [countPublish] at hp
          rw [countComplete] at hcc
          rw [countPublish, countComplete]
          simp [List.countP_append, List.countP_cons, hp, hcc]
      | some cid =>
          have hp := countPublish_drainEffects cluster (w.describeContainerInstances cluster) iid
          have hcc := countComplete_drainEffects cluster (w.describeContainerInstances cluster) iid
          rw [countPublish, countComplete] at *
          simp [List.countP_append, List.countP_cons, hp, hcc]

/-- Claim C6: for every decoded boot-configuration text, the cluster
resolver returns "default" when no whitespace token contains the
ECS_CLUSTER marker, and when exactly one token contains the marker (and
that token has an `=`) it returns the piece after the first `=` of that
token (so ECS_CLUSTER=prod-cluster resolves to "prod-cluster"). -/
theorem cluster_resolver_extracts_value (userdata : String) :
    ((∀ t ∈ pyTokens userdata, containsSubstr t "ECS_CLUSTER" = false) →
      clusterNameFromUserData userdata = Except.ok "default") ∧
    (∀ ts t ts2 v, pyTokens userdata = ts ++ t :: ts2 →
      (∀ u ∈ ts, containsSubstr u "ECS_CLUSTER" = false) →
      (∀ u ∈ ts2, containsSubstr u "ECS_CLUSTER" = false) →
      containsSubstr t "ECS_CLUSTER" = true →
      (pySplit t '=')[1]? = some v →
      clusterNameFromUserData userdata = Except.ok v) := by
  constructor
  · intro h
    exact foldl_scan_skip (pyTokens userdata) "default" h
  · intro ts t ts2 v hsplit hts hts2 hm hv
    unfold clusterNameFromUserData
    rw [hsplit, List.foldl_append, foldl_scan_skip ts "default" hts,
      List.foldl_cons, clusterScanStep_hit "default" t v hm hv]
    exact foldl_scan_skip ts2 v hts2

/-- Witness for C6 at concrete userdata texts: no marker token resolves to
"default"; the spec example token resolves to "prod-cluster". -/
theorem cluster_resolver_extracts_value_witness :
    clusterNameFromUserData "echo hello" = Except.ok "default" ∧
    clusterNameFromUserData "#!/bin/bash\necho ECS_CLUSTER=prod-cluster >> /etc/ecs/ecs.config"
      = Except.ok "prod-cluster" :=
  ⟨(cluster_resolver_extracts_value "echo hello").1 (by decide),
   (cluster_resolver_extracts_value
       "#!/bin/bash\necho ECS_CLUSTER=prod-cluster >> /etc/ecs/ecs.config").2
     ["#!/bin/bash", "echo"] "ECS_CLUSTER=prod-cluster" [">>", "/etc/ecs/ecs.config"]
     "prod-cluster" (by decide) (by decide) (by decide) (by decide) (by decide)⟩

/-- Claim C9: if any whitespace token of the decoded boot configuration
contains the ECS_CLUSTER marker but no `=`, the resolver raises an
uncaught IndexError; and when several tokens contain the marker (each
with an `=`, none after the last), the last token's value is returned. -/
theorem cluster_resolver_indexerror_and_last_wins (userdata : String) :
    ((∃ t ∈ pyTokens userdata, containsSubstr t "ECS_CLUSTER" = true ∧
        (pySplit t '=')[1]? = none) →
      clusterNameFromUserData userdata = Except.error PyErr.indexError) ∧
    (∀ ts t ts2 v, pyTokens userdata = ts ++ t :: ts2 →
      (∀ u ∈ ts, containsSubstr u "ECS_CLUSTER" = true →
          (pySplit u '=')[1]? ≠ none) →
      (∀ u ∈ ts2, containsSubstr u "ECS_CLUSTER" = false) →
      containsSubstr t "ECS_CLUSTER" = true →
      (pySplit t '=')[1]? = some v →
      clusterNameFromUserData userdata = Except.ok v) := by
  constructor
  · intro h
    exact foldl_scan_bad (pyTokens userdata) "default" h
  · intro ts t ts2 v hsplit hts hts2 hm hv
    unfold clusterNameFromUserData
    rw [hsplit, List.foldl_append]
    obtain ⟨c2, hc2⟩ := foldl_scan_ok ts "default" hts
    rw [hc2, List.foldl_cons, clusterScanStep_hit c2 t v hm hv]
    exact foldl_scan_skip ts2 v hts2

/-- Witness for C9: the token "ECS_CLUSTER" (marker, no `=`) makes the
resolver raise IndexError; with two marker tokens the last one wins. -/
theorem cluster_resolver_indexerror_and_last_wins_witness :
    clusterNameFromUserData "export ECS_CLUSTER" = Except.error PyErr.indexError ∧
    clusterNameFromUserData "ECS_CLUSTER=first ECS_CLUSTER=second" = Except.ok "second" :=
  ⟨(cluster_resolver_indexerror_and_last_wins "export ECS_CLUSTER").1 (by decide),
   (cluster_resolver_indexerror_and_last_wins "ECS_CLUSTER=first ECS_CLUSTER=second").2
     ["ECS_CLUSTER=first"] "ECS_CLUSTER=second" [] "second"
     (by decide) (by decide) (by decide) (by decide) (by decide)⟩

/-- Claim C2 counterexample: at retry_count = 5 (read from the message)
and jitter 0 the computed delay is min(2^5 + 0, 30) = 30, which is
strictly below 2^5 = 32, so the claimed bound 2^retry_count ≤ delay
fails; the claim as stated is false. -/
theorem backoff_lower_bound_cex :
    (publish_to_sns [("retry_count", JVal.num 5)] 0).sleep = 30 ∧
    ¬ ((2 : ℚ) ^ (5 : ℕ) ≤ (publish_to_sns [("retry_count", JVal.num 5)] 0).sleep) := by
  have h5 : retryCountOf [("retry_count", JVal.num 5)] = 5 := by decide
  have h : (publish_to_sns [("retry_count", JVal.num 5)] 0).sleep = 30 := by
    show min ((2 : ℚ) ^ retryCountOf [("retry_count", JVal.num 5)] + (0 : ℚ) / 1000) 30 = 30
    rw [h5]
    norm_num
  exact ⟨h, by rw [h]; norm_num⟩

/-- Claim C2 (amended): with retry_count ≥ 1 read from the current message
(defaulting to 1 when absent) and jitter j = randint(0,1000)/1000 (so
0 ≤ j ≤ 1), the delay is exactly min(2^retry_count + j, 30); hence
2^retry_count ≤ delay ≤ 2^retry_count + 1 holds whenever retry_count ≤ 4,
while for retry_count ≥ 5 the cap takes over and delay = 30; the delay
never exceeds 30. -/
theorem backoff_delay_formula (m : Msg) (jitter rc : Nat)
    (hj : jitter ≤ 1000) (hrc1 : 1 ≤ rc)
    (hrc : lookupKey m "retry_count" = some (JVal.num rc) ∨
           (lookupKey m "retry_count" = none ∧ rc = 1)) :
    (publish_to_sns m jitter).sleep = min ((2 : ℚ) ^ rc + (jitter : ℚ) / 1000) 30 ∧
    (0 : ℚ) ≤ (jitter : ℚ) / 1000 ∧ (jitter : ℚ) / 1000 ≤ 1 ∧
    (rc ≤ 4 → (2 : ℚ) ^ rc ≤ (publish_to_sns m jitter).sleep ∧
        (publish_to_sns m jitter).sleep ≤ (2 : ℚ) ^ rc + 1) ∧
    (5 ≤ rc → (publish_to_sns m jitter).sleep = 30) ∧
    (publish_to_sns m jitter).sleep ≤ 30 := by
  have hrceq : retryCountOf m = rc := by
    rcases hrc with h | ⟨h, rfl⟩ <;> simp [retryCountOf, h]
  have hsleep : (publish_to_sns m jitter).sleep
      = min ((2 : ℚ) ^ rc + (jitter : ℚ) / 1000) 30 := by
    show min ((2 : ℚ) ^ retryCountOf m + (jitter : ℚ) / 1000) 30 = _
    rw [hrceq]
  have hj0 : (0 : ℚ) ≤ (jitter : ℚ) / 1000 := by positivity
  have hj1 : (jitter : ℚ) / 1000 ≤ 1 := by
    rw [div_le_one (by norm_num)]
    exact_mod_cast hj
  refine ⟨hsleep, hj0, hj1, ?_, ?_, ?_⟩
  · intro h4
    have hpow : (2 : ℚ) ^ rc ≤ 16 := by
      calc (2 : ℚ) ^ rc ≤ (2 : ℚ) ^ (4 : ℕ) := pow_le_pow_right₀ (by norm_num) h4
        _ = 16 := by norm_num
    have hmin : min ((2 : ℚ) ^ rc + (jitter : ℚ) / 1000) 30
        = (2 : ℚ) ^ rc + (jitter : ℚ) / 1000 := min_eq_left (by linarith)
    rw [hsleep, hmin]
    constructor <;> linarith
  · intro h5
    have hpow : (32 : ℚ) ≤ (2 : ℚ) ^ rc := by
      calc (32 : ℚ) = (2 : ℚ) ^ (5 : ℕ) := by norm_num
        _ ≤ (2 : ℚ) ^ rc := pow_le_pow_right₀ (by norm_num) h5
    rw [hsleep]
    exact min_eq_right (by linarith)
  · rw [hsleep]
    exact min_le_right _ _

/-- Witness for the amended C2 at retry_count 2, jitter 500: the delay is
min(4 + 1/2, 30) and lies between 4 and 5. -/
theorem backoff_delay_formula_witness :
    (500 ≤ 1000 ∧ 1 ≤ 2 ∧
      lookupKey [("retry_count", JVal.num 2)] "retry_count" = some (JVal.num 2)) ∧
    ((publish_to_sns [("retry_count", JVal.num 2)] 500).sleep
        = min ((2 : ℚ) ^ (2 : ℕ) + (500 : ℚ) / 1000) 30 ∧
      (0 : ℚ) ≤ (500 : ℚ) / 1000 ∧ (500 : ℚ) / 1000 ≤ 1 ∧
      (2 ≤ 4 → (2 : ℚ) ^ (2 : ℕ) ≤ (publish_to_sns [("retry_count", JVal.num 2)] 500).sleep ∧
          (publish_to_sns [("retry_count", JVal.num 2)] 500).sleep ≤ (2 : ℚ) ^ (2 : ℕ) + 1) ∧
      (5 ≤ 2 → (publish_to_sns [("retry_count", JVal.num 2)] 500).sleep = 30) ∧
      (publish_to_sns [("retry_count", JVal.num 2)] 500).sleep ≤ 30) :=
  ⟨⟨by norm_num, by norm_num, by decide⟩,
   backoff_delay_formula [("retry_count", JVal.num 2)] 500 2 (by norm_num) (by norm_num)
     (Or.inl (by decide))⟩

/-- Claim C3: the published message's retry_count is exactly one more than
the input's (absent counting as 1), and every other field of the input
message — lifecycle hook name, attached container instance id, anything
else — is looked up unchanged in the published message. -/
theorem republish_increments_retry_count (m : Msg) (jitter rc : Nat)
    (hrc : lookupKey m "retry_count" = some (JVal.num rc) ∨
           (lookupKey m "retry_count" = none ∧ rc = 1)) :
    lookupKey (publish_to_sns m jitter).published "retry_count"
        = some (JVal.num (rc + 1)) ∧
    ∀ k, k ≠ "retry_count" →
      lookupKey (publish_to_sns m jitter).published k = lookupKey m k := by
  have hrceq : retryCountOf m = rc := by
    rcases hrc with h | ⟨h, rfl⟩ <;> simp [retryCountOf, h]
  constructor
  · show lookupKey (setKey m "retry_count" (JVal.num (retryCountOf m + 1)))
        "retry_count" = _
    rw [hrceq, lookupKey_setKey_same]
  · intro k hk
    show lookupKey (setKey m "retry_count" (JVal.num (retryCountOf m + 1))) k = _
    exact lookupKey_setKey_ne m "retry_count" k _ (fun h => hk h.symm)

/-- Witness for C3 at a concrete message with no retry_count, a lifecycle
hook name and an attached container instance id: the published message
carries retry_count 2 and both other fields unchanged. -/
theorem republish_increments_retry_count_witness :
    lookupKey [("LifecycleHookName", JVal.str "hook-1"),
               ("container_instance_id", JVal.str "arn:ci/1")] "retry_count" = none ∧
    (lookupKey (publish_to_sns [("LifecycleHookName", JVal.str "hook-1"),
        ("container_instance_id", JVal.str "arn:ci/1")] 250).published "retry_count"
        = some (JVal.num 2) ∧
      ∀ k, k ≠ "retry_count" →
        lookupKey (publish_to_sns [("LifecycleHookName", JVal.str "hook-1"),
            ("container_instance_id", JVal.str "arn:ci/1")] 250).published k
          = lookupKey [("LifecycleHookName", JVal.str "hook-1"),
              ("container_instance_id", JVal.str "arn:ci/1")] k) :=
  ⟨by decide,
   republish_increments_retry_count
     [("LifecycleHookName", JVal.str "hook-1"), ("container_instance_id", JVal.str "arn:ci/1")]
     250 1 (Or.inr ⟨by decide, rfl⟩)⟩

/-- Claim C8 counterexample: `publish_to_sns` does NOT leave the input
message value unchanged — `message.update` (line 52) mutates the dict in
place, so after the call the caller's message differs from the original
at a concrete input. -/
theorem publish_copies_input_cex :
    (publish_to_sns [("retry_count", JVal.num 1)] 0).messageAfter
      ≠ [("retry_count", JVal.num 1)] := by decide

/-- Claim C8 (amended): the republished message is the input message
updated with the incremented retry_count, all other fields preserved —
but it is not a fresh copy: the code mutates the same dict in place, so
after the call the caller's message is identical to the published one. -/
theorem publish_updates_message_in_place (m : Msg) (jitter : Nat) :
    (publish_to_sns m jitter).messageAfter = (publish_to_sns m jitter).published ∧
    lookupKey (publish_to_sns m jitter).messageAfter "retry_count"
        = some (JVal.num (retryCountOf m + 1)) ∧
    ∀ k, k ≠ "retry_count" →
      lookupKey (publish_to_sns m jitter).messageAfter k = lookupKey m k := by
  refine ⟨rfl, ?_, ?_⟩
  · show lookupKey (setKey m "retry_count" (JVal.num (retryCountOf m + 1)))
        "retry_count" = _
    rw [lookupKey_setKey_same]
  · intro k hk
    show lookupKey (setKey m "retry_count" (JVal.num (retryCountOf m + 1))) k = _
    exact lookupKey_setKey_ne m "retry_count" k _ (fun h => hk h.symm)

/-- Witness for the amended C8 at a concrete message. -/
theorem publish_updates_message_in_place_witness :
    (publish_to_sns [("retry_count", JVal.num 3)] 7).messageAfter
        = (publish_to_sns [("retry_count", JVal.num 3)] 7).published ∧
    lookupKey (publish_to_sns [("retry_count", JVal.num 3)] 7).messageAfter "retry_count"
        = some (JVal.num (retryCountOf [("retry_count", JVal.num 3)] + 1)) ∧
    ∀ k, k ≠ "retry_count" →
      lookupKey (publish_to_sns [("retry_count", JVal.num 3)] 7).messageAfter k
        = lookupKey [("retry_count", JVal.num 3)] k :=
  publish_updates_message_in_place [("retry_count", JVal.num 3)] 7

/-- Claim C5: an event whose message has no LifecycleTransition field, or
whose LifecycleTransition does not contain the terminating marker, makes
the handler perform no external API call at all: the effect trace is
empty (no status check, no SNS publish, no lifecycle completion). -/
theorem non_terminating_event_no_api_calls (w : World) (m : Msg) (topic : String)
    (jitter : Nat)
    (h : lookupKey m "LifecycleTransition" = none ∨
         ∃ v, lookupKey m "LifecycleTransition" = some v ∧
           containsSubstr v.asString "autoscaling:EC2_INSTANCE_TERMINATING" = false) :
    (lambda_handler w m topic jitter).1 = [] := by
  unfold lambda_handler
  cases h1 : lookupKey m "EC2InstanceId" with
  | none => rfl
  | some iidV =>
      cases h2 : lookupKey m "AutoScalingGroupName" with
      | none => rfl
      | some asgV =>
          rcases h with h3 | ⟨v, h3, hv⟩
          · rw [h3]
          · rw [h3]
            simp [hv]

/-- Witness for C5: a message with no LifecycleTransition field (a test
notification) yields an empty effect trace. -/
theorem non_terminating_event_no_api_calls_witness :
    lookupKey [("EC2InstanceId", JVal.str "i-1"),
               ("AutoScalingGroupName", JVal.str "asg-1")] "LifecycleTransition" = none ∧
    (lambda_handler worldBusy
        [("EC2InstanceId", JVal.str "i-1"), ("AutoScalingGroupName", JVal.str "asg-1")]
        "topic" 0).1 = [] :=
  ⟨by decide,
   non_terminating_event_no_api_calls worldBusy
     [("EC2InstanceId", JVal.str "i-1"), ("AutoScalingGroupName", JVal.str "asg-1")]
     "topic" 0 (Or.inl (by decide))⟩

/-- Claim C10: a message with a terminating LifecycleTransition but no
LifecycleHookName field makes the handler raise an uncaught KeyError at
line 193, before any cluster-manager, SNS or autoscaling call, so the
effect trace is empty. -/
theorem missing_hook_name_keyerror (w : World) (m : Msg) (topic : String) (jitter : Nat)
    (v1 v2 ltV : JVal)
    (h1 : lookupKey m "EC2InstanceId" = some v1)
    (h2 : lookupKey m "AutoScalingGroupName" = some v2)
    (h3 : lookupKey m "LifecycleTransition" = some ltV)
    (h4 : containsSubstr ltV.asString "autoscaling:EC2_INSTANCE_TERMINATING" = true)
    (h5 : lookupKey m "LifecycleHookName" = none) :
    lambda_handler w m topic jitter = ([], some PyErr.keyError) := by
  unfold lambda_handler
  rw [h1, h2, h3]
  simp [h4, h5]

/-- Witness for C10 at a concrete hook-less terminating message. -/
theorem missing_hook_name_keyerror_witness :
    (lookupKey [("EC2InstanceId", JVal.str "i-1"),
                ("AutoScalingGroupName", JVal.str "asg-1"),
                ("LifecycleTransition", JVal.str "autoscaling:EC2_INSTANCE_TERMINATING")]
        "LifecycleHookName" = none) ∧
    lambda_handler worldBusy
        [("EC2InstanceId", JVal.str "i-1"),
         ("AutoScalingGroupName", JVal.str "asg-1"),
         ("LifecycleTransition", JVal.str "autoscaling:EC2_INSTANCE_TERMINATING")]
        "topic" 0 = ([], some PyErr.keyError) :=
  ⟨by decide,
   missing_hook_name_keyerror worldBusy
     [("EC2InstanceId", JVal.str "i-1"),
      ("AutoScalingGroupName", JVal.str "asg-1"),
      ("LifecycleTransition", JVal.str "autoscaling:EC2_INSTANCE_TERMINATING")]
     "topic" 0 (JVal.str "i-1") (JVal.str "asg-1")
     (JVal.str "autoscaling:EC2_INSTANCE_TERMINATING")
     (by decide) (by decide) (by decide) (by decide) (by decide)⟩

/-- Claim C4: when the EC2 instance id matches no tracked container
instance of the resolved cluster, the status checker returns zero tasks
with no resolved reference and issues neither an update-to-DRAINING call
nor a list-tasks call. -/
theorem untracked_instance_zero_tasks (w : World) (iid cluster : String)
    (h6 : clusterNameFromUserData (w.userDataOf iid) = Except.ok cluster)
    (hno : ∀ ci ∈ w.describeContainerInstances cluster, ci.ec2InstanceId ≠ iid) :
    (container_instance_task_status w iid).2 = Except.ok (0, none) ∧
    countUpdateState (container_instance_task_status w iid).1 = 0 ∧
    countListTasks (container_instance_task_status w iid).1 = 0 := by
  have hfilter : (w.describeContainerInstances cluster).filter
      (fun ci => ci.ec2InstanceId == iid) = [] := by
    rw [List.filter_eq_nil_iff]
    intro ci hci
    simp [hno ci hci]
  have hma : matchedArn (w.describeContainerInstances cluster) iid = none := by
    rw [matchedArn, hfilter]
    rfl
  have hde : drainEffects cluster (w.describeContainerInstances cluster) iid = [] := by
    rw [drainEffects, List.filterMap_eq_nil_iff]
    intro ci hci
    simp [hno ci hci]
  rw [cits_unmatched_eq w iid cluster h6 hma, hde]
  exact ⟨rfl, rfl, rfl⟩

/-- Witness for C4: in a world tracking only instance `i-9`, checking
`i-1` returns zero tasks, no reference, and no update or list-tasks call. -/
theorem untracked_instance_zero_tasks_witness :
    (clusterNameFromUserData (worldUntracked.userDataOf "i-1") = Except.ok "prod") ∧
    ((container_instance_task_status worldUntracked "i-1").2 = Except.ok (0, none) ∧
      countUpdateState (container_instance_task_status worldUntracked "i-1").1 = 0 ∧
      countListTasks (container_instance_task_status worldUntracked "i-1").1 = 0) :=
  ⟨by decide,
   untracked_instance_zero_tasks worldUntracked "i-1" "prod" (by decide) (by decide)⟩

/-- Publish count distributes over trace concatenation. -/
theorem countPublish_append (a b : List Effect) :
    countPublish (a ++ b) = countPublish a + countPublish b :=
  List.countP_append _ _ _

/-- Completion count distributes over trace concatenation. -/
theorem countComplete_append (a b : List Effect) :
    countComplete (a ++ b) = countComplete a + countComplete b :=
  List.countP_append _ _ _

/-- Claim C1: for a terminating event whose instance matches a tracked
container instance, the handler publishes exactly one retry and no
completion when the matched instance still has tasks, and makes exactly
one CONTINUE completion call and no publish when it has zero tasks. -/
theorem terminating_event_dispatch (w : World) (m : Msg) (topic : String) (jitter : Nat)
    (iid asg hook lt cluster cid : String)
    (h1 : lookupKey m "EC2InstanceId" = some (JVal.str iid))
    (h2 : lookupKey m "AutoScalingGroupName" = some (JVal.str asg))
    (h3 : lookupKey m "LifecycleTransition" = some (JVal.str lt))
    (h4 : containsSubstr lt "autoscaling:EC2_INSTANCE_TERMINATING" = true)
    (h5 : lookupKey m "LifecycleHookName" = some (JVal.str hook))
    (h6 : clusterNameFromUserData (w.userDataOf iid) = Except.ok cluster)
    (h7 : matchedArn (w.describeContainerInstances cluster) iid = some cid) :
    (0 < (w.listTasks cluster cid).length →
      countPublish (lambda_handler w m topic jitter).1 = 1 ∧
      countComplete (lambda_handler w m topic jitter).1 = 0) ∧
    ((w.listTasks cluster cid).length = 0 →
      countComplete (lambda_handler w m topic jitter).1 = 1 ∧
      countPublish (lambda_handler w m topic jitter).1 = 0 ∧
      Effect.completeLifecycleAction hook asg "CONTINUE" iid
        ∈ (lambda_handler w m topic jitter).1) := by
  have hL := cits_matched_eq w iid cluster cid h6 h7
  constructor
  · intro hpos
    have hL1 : container_instance_task_status w iid =
        (([Effect.describeInstanceAttributeCall iid,
           Effect.listContainerInstancesCall cluster,
           Effect.describeContainerInstancesCall cluster]
            ++ drainEffects cluster (w.describeContainerInstances cluster) iid)
          ++ [Effect.listTasksCall cluster cid],
         Except.ok (1, some cid)) := by
      rw [hL, if_pos hpos]
    have hp0 := (cits_counts w iid).1
    have hc0 := (cits_counts w iid).2
    rw [hL1] at hp0 hc0
    have hH : lambda_handler w m topic jitter =
        ((([Effect.describeInstanceAttributeCall iid,
            Effect.listContainerInstancesCall cluster,
            Effect.describeContainerInstancesCall cluster]
             ++ drainEffects cluster (w.describeContainerInstances cluster) iid)
           ++ [Effect.listTasksCall cluster cid])
          ++ [Effect.snsPublish topic
              (publish_to_sns (setKey m "container_instance_id" (JVal.str cid))
                jitter).published],
         none) := by
      simp [lambda_handler, h1, h2, h3, JVal.asString, h4, h5, hL1]
    rw [hH]
    constructor
    · rw [countPublish_append]
      rw [show countPublish (([Effect.describeInstanceAttributeCall iid,
          Effect.listContainerInstancesCall cluster,
          Effect.describeContainerInstancesCall cluster]
            ++ drainEffects cluster (w.describeContainerInstances cluster) iid)
          ++ [Effect.listTasksCall cluster cid]) = 0 from hp0]
      rfl
    · rw [countComplete_append]
      rw [show countComplete (([Effect.describeInstanceAttributeCall iid,
          Effect.listContainerInstancesCall cluster,
          Effect.describeContainerInstancesCall cluster]
            ++ drainEffects cluster (w.describeContainerInstances cluster) iid)
          ++ [Effect.listTasksCall cluster cid]) = 0 from hc0]
      rfl
  · intro hzero
    have hL0 : container_instance_task_status w iid =
        (([Effect.describeInstanceAttributeCall iid,
           Effect.listContainerInstancesCall cluster,
           Effect.describeContainerInstancesCall cluster]
            ++ drainEffects cluster (w.describeContainerInstances cluster) iid)
          ++ [Effect.listTasksCall cluster cid],
         Except.ok (0, some cid)) := by
      rw [hL, if_neg (by omega)]
    have hp0 := (cits_counts w iid).1
    have hc0 := (cits_counts w iid).2
    rw [hL0] at hp0 hc0
    have htr : (lambda_handler w m topic jitter).1 =
        (([Effect.describeInstanceAttributeCall iid,
           Effect.listContainerInstancesCall cluster,
           Effect.describeContainerInstancesCall cluster]
            ++ drainEffects cluster (w.describeContainerInstances cluster) iid)
          ++ [Effect.listTasksCall cluster cid])
          ++ [Effect.completeLifecycleAction hook asg "CONTINUE" iid] := by
      cases hco : w.completeOutcome <;>
        simp [lambda_handler, h1, h2, h3, JVal.asString, h4, h5, hL0, hco]
    rw [htr]
    refine ⟨?_, ?_, ?_⟩
    · rw [countComplete_append]
      rw [show countComplete (([Effect.describeInstanceAttributeCall iid,
          Effect.listContainerInstancesCall cluster,
          Effect.describeContainerInstancesCall cluster]
            ++ drainEffects cluster (w.describeContainerInstances cluster) iid)
          ++ [Effect.listTasksCall cluster cid]) = 0 from hc0]
      rfl
    · rw [countPublish_append]
      rw [show countPublish (([Effect.describeInstanceAttributeCall iid,
          Effect.listContainerInstancesCall cluster,
          Effect.describeContainerInstancesCall cluster]
            ++ drainEffects cluster (w.describeContainerInstances cluster) iid)
          ++ [Effect.listTasksCall cluster cid]) = 0 from hp0]
      rfl
    · exact List.mem_append_right _ (by simp)

/-- Witness for C1: with two tasks left the handler publishes one retry
and completes nothing; with zero tasks it completes once (CONTINUE for
hook-1/asg-1/i-1) and publishes nothing. -/
theorem terminating_event_dispatch_witness :
    (countPublish (lambda_handler worldBusy msgTerm "topic-arn" 0).1 = 1 ∧
      countComplete (lambda_handler worldBusy msgTerm "topic-arn" 0).1 = 0) ∧
    (countComplete (lambda_handler worldIdle msgTerm "topic-arn" 0).1 = 1 ∧
      countPublish (lambda_handler worldIdle msgTerm "topic-arn" 0).1 = 0 ∧
      Effect.completeLifecycleAction "hook-1" "asg-1" "CONTINUE" "i-1"
        ∈ (lambda_handler worldIdle msgTerm "topic-arn" 0).1) :=
  ⟨(terminating_event_dispatch worldBusy msgTerm "topic-arn" 0 "i-1" "asg-1" "hook-1"
      "autoscaling:EC2_INSTANCE_TERMINATING" "prod" "arn:ci/1"
      (by decide) (by decide) (by decide) (by decide) (by decide) (by decide)
      (by decide)).1 (by decide),
   (terminating_event_dispatch worldIdle msgTerm "topic-arn" 0 "i-1" "asg-1" "hook-1"
      "autoscaling:EC2_INSTANCE_TERMINATING" "prod" "arn:ci/1"
      (by decide) (by decide) (by decide) (by decide) (by decide) (by decide)
      (by decide)).2 (by decide)⟩

/-- Claim C7: when the status check reports zero tasks, a ClientError from
the one `complete_lifecycle_action` attempt is swallowed — no exception
propagates, no retry is published, and the completion is not reattempted
(exactly one completion call) — while any other exception class from
that call propagates out of the handler. -/
theorem completion_clienterror_swallowed (w : World) (m : Msg) (topic : String)
    (jitter : Nat) (iid asg hook lt : String) (effs : List Effect) (tmp : Option String)
    (h1 : lookupKey m "EC2InstanceId" = some (JVal.str iid))
    (h2 : lookupKey m "AutoScalingGroupName" = some (JVal.str asg))
    (h3 : lookupKey m "LifecycleTransition" = some (JVal.str lt))
    (h4 : containsSubstr lt "autoscaling:EC2_INSTANCE_TERMINATING" = true)
    (h5 : lookupKey m "LifecycleHookName" = some (JVal.str hook))
    (h6 : container_instance_task_status w iid = (effs, Except.ok (0, tmp))) :
    (w.completeOutcome = CompleteOutcome.clientError →
      (lambda_handler w m topic jitter).2 = none ∧
      countComplete (lambda_handler w m topic jitter).1 = 1 ∧
      countPublish (lambda_handler w m topic jitter).1 = 0) ∧
    (w.completeOutcome = CompleteOutcome.otherError →
      (lambda_handler w m topic jitter).2 = some PyErr.otherError) := by
  have hp0 := (cits_counts w iid).1
  have hc0 := (cits_counts w iid).2
  rw [h6] at hp0 hc0
  constructor
  · intro hco
    have hH : lambda_handler w m topic jitter =
        (effs ++ [Effect.completeLifecycleAction hook asg "CONTINUE" iid], none) := by
      simp [lambda_handler, h1, h2, h3, JVal.asString, h4, h5, h6, hco]
    rw [hH]
    refine ⟨rfl, ?_, ?_⟩
    · rw [countComplete_append, show countComplete effs = 0 from hc0]
      rfl
    · rw [countPublish_append, show countPublish effs = 0 from hp0]
      rfl
  · intro hco
    have hH : lambda_handler w m topic jitter =
        (effs ++ [Effect.completeLifecycleAction hook asg "CONTINUE" iid],
         some PyErr.otherError) := by
      simp [lambda_handler, h1, h2, h3, JVal.asString, h4, h5, h6, hco]
    rw [hH]

/-- Witness for C7: with zero tasks, a world whose completion call raises
ClientError ends cleanly with one completion and no publish; a world
whose completion call raises some other exception propagates it. -/
theorem completion_clienterror_swallowed_witness :
    ((lambda_handler worldClientErr msgTerm "topic-arn" 0).2 = none ∧
      countComplete (lambda_handler worldClientErr msgTerm "topic-arn" 0).1 = 1 ∧
      countPublish (lambda_handler worldClientErr msgTerm "topic-arn" 0).1 = 0) ∧
    (lambda_handler worldOtherErr msgTerm "topic-arn" 0).2 = some PyErr.otherError :=
  ⟨(completion_clienterror_swallowed worldClientErr msgTerm "topic-arn" 0
      "i-1" "asg-1" "hook-1" "autoscaling:EC2_INSTANCE_TERMINATING"
      [Effect.describeInstanceAttributeCall "i-1",
       Effect.listContainerInstancesCall "prod",
       Effect.describeContainerInstancesCall "prod",
       Effect.updateContainerInstancesState "prod" ["arn:ci/1"] "DRAINING",
       Effect.listTasksCall "prod" "arn:ci/1"] (some "arn:ci/1")
      (by decide) (by decide) (by decide) (by decide) (by decide) (by decide)).1 rfl,
   (completion_clienterror_swallowed worldOtherErr msgTerm "topic-arn" 0
      "i-1" "asg-1" "hook-1" "autoscaling:EC2_INSTANCE_TERMINATING"
      [Effect.describeInstanceAttributeCall "i-1",
       Effect.listContainerInstancesCall "prod",
       Effect.describeContainerInstancesCall "prod",
       Effect.updateContainerInstancesState "prod" ["arn:ci/1"] "DRAINING",
       Effect.listTasksCall "prod" "arn:ci/1"] (some "arn:ci/1")
      (by decide) (by decide) (by decide) (by decide) (by decide) (by decide)).2 rfl⟩
